import Mathlib

/-!
Shallow embedding of `src/src/lib.rs` of the Motion-Sketch repository
(a winit/wgpu window that clears the surface to a fixed color each frame).

The embedding follows the source:
* `TextureFormat`, `SurfaceError`, `Color`, `PhysicalSize`,
  `SurfaceConfiguration` model the wgpu/winit data the code inspects.
  Fields of `wgpu::SurfaceConfiguration` that the code sets to constants it
  never reads back (`usage`, `present_mode`, `alpha_mode`, `view_formats`)
  are omitted; they play no role in any behavior below.
* `State.new`, `State.resize`, `State.render` are `State::new`,
  `State::resize`, `State::render` from lib.rs (lines 33-146).
* `step` is the body of the closure passed to `event_loop.run`
  (lib.rs lines 195-249); `runEvents` iterates it over an event list,
  stopping once `control_flow.exit()` has been called.
* GPU and platform nondeterminism (the outcome of
  `surface.get_current_texture()`) is an oracle carried by the
  `RedrawRequested` event.  Observable effects (surface configuration,
  render passes, presents, loop exit) are collected in a trace of `Action`s.
* Wall-clock instrumentation in `run` (frame pacing sleep, FPS counter,
  title updates, logging) has no effect on any modeled state and is not
  embedded.
-/

namespace MotionSketch

/-- A wgpu texture format: the code only inspects whether it is sRGB
(`f.is_srgb()` at lib.rs:62).  `code` keeps distinct formats distinct. -/
structure TextureFormat where
  code : Nat
  srgb : Bool
deriving DecidableEq

/-- `wgpu::SurfaceError` (the error type of `State::render`). -/
inductive SurfaceError
  | Lost
  | Outdated
  | OutOfMemory
  | Timeout
deriving DecidableEq

/-- `wgpu::Color` with exact rational channels. -/
structure Color where
  r : Rat
  g : Rat
  b : Rat
  a : Rat
deriving DecidableEq

/-- The clear color constant of the render pass (lib.rs:127-132):
`r: 1.0, g: 0.2, b: 0.3, a: 1.0`. -/
def clear_color : Color :=
  { r := 1, g := 1/5, b := 3/10, a := 1 }

/-- `winit::dpi::PhysicalSize<u32>`. -/
structure PhysicalSize where
  width : Nat
  height : Nat
deriving DecidableEq

/-- The fields of `wgpu::SurfaceConfiguration` the program reads or mutates
(lib.rs:66-75). -/
structure SurfaceConfiguration where
  format : TextureFormat
  width : Nat
  height : Nat
  desired_maximum_frame_latency : Nat
deriving DecidableEq

/-- The `State` struct (lib.rs:22-30): the wgpu surface/device/queue handles
carry no inspected state; `config` and `size` are the data. -/
structure State where
  config : SurfaceConfiguration
  size : PhysicalSize
deriving DecidableEq

/-- Reason the event loop was asked to exit (`control_flow.exit()` call sites:
lib.rs:212 for close/escape, lib.rs:235 for out-of-memory). -/
inductive ExitCause
  | closeRequested
  | escapeKey
  | outOfMemory
deriving DecidableEq

/-- Observable effects of the program, collected as a trace. -/
inductive Action
  /-- `surface.configure(&device, &config)` with the config's new size
  (lib.rs:96). -/
  | configure (w h : Nat)
  /-- the platform reported a new window physical size
  (the payload of `WindowEvent::Resized`, lib.rs:213). -/
  | windowResized (w h : Nat)
  /-- `surface.get_current_texture()` succeeded (lib.rs:109). -/
  | acquire
  /-- `surface.get_current_texture()` failed with the given error. -/
  | acquireErr (e : SurfaceError)
  /-- one render pass recorded, clearing to `c`, issuing `draws` draw calls
  (lib.rs:121-139: the pass is dropped immediately, so `draws = 0`). -/
  | renderPass (c : Color) (draws : Nat)
  /-- `queue.submit` of the encoded commands (lib.rs:142). -/
  | submit
  /-- `output.present()` of a drawable whose dimensions are the surface
  configuration's current width/height (lib.rs:143). -/
  | present (w h : Nat)
  /-- `control_flow.exit()` was called. -/
  | exitLoop (c : ExitCause)
deriving DecidableEq

/-- Does the action mark a call to `State::render`?  Every call performs
exactly one `get_current_texture` attempt, so `acquire`/`acquireErr` are
in bijection with render calls. -/
def Action.isRenderCall : Action → Bool
  | .acquire => true
  | .acquireErr _ => true
  | _ => false

/-- Does the action present a frame? -/
def Action.isPresent : Action → Bool
  | .present _ _ => true
  | _ => false

/-- Does the action reconfigure the surface? -/
def Action.isConfigure : Action → Bool
  | .configure _ _ => true
  | _ => false

/-- The surface format selection of `State::new` (lib.rs:60-64):
`surface_caps.formats.iter().find(|f| f.is_srgb()).copied()
 .unwrap_or(surface_caps.formats[0])`.
The Rust indexing `formats[0]` requires a nonempty capability list. -/
def surface_format (formats : List TextureFormat) (h : formats ≠ []) :
    TextureFormat :=
  (formats.find? (fun f => f.srgb)).getD (formats.get ⟨0, List.length_pos.mpr h⟩)

/-- `State::new` (lib.rs:33-85): builds the surface configuration from the
window's inner size and the chosen format (`width: size.width,
height: size.height, desired_maximum_frame_latency: 2`).  Note it does NOT
call `surface.configure` — the surface is first configured by `resize`. -/
def State.new (size : PhysicalSize) (formats : List TextureFormat)
    (h : formats ≠ []) : State :=
  { config :=
      { format := surface_format formats h
        width := size.width
        height := size.height
        desired_maximum_frame_latency := 2 }
    size := size }

/-- `State::resize` (lib.rs:91-98): if both dimensions are positive, store the
new size, mirror it into the configuration and configure the surface;
otherwise do nothing. -/
def State.resize (s : State) (new_size : PhysicalSize) : State × List Action :=
  if 0 < new_size.width ∧ 0 < new_size.height then
    ({ config := { s.config with width := new_size.width, height := new_size.height }
       size := new_size },
     [Action.configure new_size.width new_size.height])
  else
    (s, [])

/-- `State::render` (lib.rs:108-146).  `acq` is the environment's outcome for
`surface.get_current_texture()` (`none` = success).  On success: create a
view, record one render pass clearing to `clear_color` with no draw calls,
submit, present.  On failure the `?` operator returns the error at once.
The returned `State` is the input state: `render` mutates no field. -/
def State.render (s : State) (acq : Option SurfaceError) :
    Option SurfaceError × State × List Action :=
  match acq with
  | some e => (some e, s, [Action.acquireErr e])
  | none =>
      (none, s,
       [Action.acquire, Action.renderPass clear_color 0, Action.submit,
        Action.present s.config.width s.config.height])

/-- The window events the closure in `run` distinguishes (lib.rs:202-247).
`KeyboardInput` keeps the two tested fields (`state == Pressed`,
`physical_key == Code(Escape)`); `RedrawRequested` carries the oracle for
the frame's `get_current_texture` outcome; all other events hit the
wildcard arms. -/
inductive WindowEvent
  | CloseRequested
  | KeyboardInput (pressed : Bool) (escape : Bool)
  | Resized (w h : Nat)
  | RedrawRequested (acq : Option SurfaceError)
  | Other
deriving DecidableEq

/-- The driver-loop state captured by the closure in `run` (lib.rs:158-159):
the `State`, the `surface_configured` flag, whether `control_flow.exit()`
has been called, and the window's current physical size as last reported
by the platform (initially the creation size, updated by `Resized`). -/
structure LoopState where
  st : State
  surface_configured : Bool
  exited : Bool
  windowSize : PhysicalSize
deriving DecidableEq

/-- One dispatch of the event-loop closure (lib.rs:195-249).
`state.input` always returns `false` (lib.rs:100-102) so the inner match
always runs; `state.update()` is a no-op (lib.rs:104-106).
`RedrawRequested` first calls `request_redraw` (not an observable of the
model), returns early while `!surface_configured` (lib.rs:221-223), then
dispatches on the render result exactly as lib.rs:226-242. -/
def step (ls : LoopState) (e : WindowEvent) : LoopState × List Action :=
  match e with
  | .CloseRequested =>
      ({ ls with exited := true }, [Action.exitLoop ExitCause.closeRequested])
  | .KeyboardInput pressed escape =>
      if pressed && escape then
        ({ ls with exited := true }, [Action.exitLoop ExitCause.escapeKey])
      else
        (ls, [])
  | .Resized w h =>
      let r := State.resize ls.st ⟨w, h⟩
      ({ ls with st := r.1, surface_configured := true, windowSize := ⟨w, h⟩ },
       Action.windowResized w h :: r.2)
  | .RedrawRequested acq =>
      if ls.surface_configured then
        let r := State.render ls.st acq
        match r.1 with
        | none => ({ ls with st := r.2.1 }, r.2.2)
        | some SurfaceError.Lost =>
            let r2 := State.resize r.2.1 r.2.1.size
            ({ ls with st := r2.1 }, r.2.2 ++ r2.2)
        | some SurfaceError.Outdated =>
            let r2 := State.resize r.2.1 r.2.1.size
            ({ ls with st := r2.1 }, r.2.2 ++ r2.2)
        | some SurfaceError.OutOfMemory =>
            ({ ls with st := r.2.1, exited := true },
             r.2.2 ++ [Action.exitLoop ExitCause.outOfMemory])
        | some SurfaceError.Timeout => ({ ls with st := r.2.1 }, r.2.2)
      else
        (ls, [])
  | .Other => (ls, [])

/-- Run the event loop over a list of events, concatenating traces; once
`control_flow.exit()` has been called no further event is dispatched. -/
def runEvents (ls : LoopState) : List WindowEvent → LoopState × List Action
  | [] => (ls, [])
  | e :: es =>
      if ls.exited then (ls, [])
      else
        let r := step ls e
        let r2 := runEvents r.1 es
        (r2.1, r.2 ++ r2.2)

/-- Does the GPU/platform environment let startup succeed?  `State::new`
calls `.unwrap()` on `create_surface` (lib.rs:41), `request_adapter`
(lib.rs:48) and `request_device` (lib.rs:58), and indexes `formats[0]`
(lib.rs:64): each failure is a panic. -/
structure Env where
  surface_ok : Bool
  adapter_ok : Bool
  device_ok : Bool
  formats : List TextureFormat
  initial_size : PhysicalSize
deriving DecidableEq

def Env.initOk (env : Env) : Prop :=
  env.surface_ok = true ∧ env.adapter_ok = true ∧ env.device_ok = true ∧
    env.formats ≠ []

instance (env : Env) : Decidable env.initOk := by
  unfold Env.initOk
  infer_instance

/-- How a whole run of `pub async fn run` ends: `normal` when `run` returns
(its caller's process then exits with code 0), `panicked` when an
`.unwrap()` in `State::new` fails (the process aborts abnormally). -/
inductive RunOutcome
  | normal
  | panicked
deriving DecidableEq

/-- The process exit code for each outcome: a normal return from `run` exits
the process with 0; a Rust panic terminates it with a nonzero code (101). -/
def exitCode : RunOutcome → Nat
  | RunOutcome.normal => 0
  | RunOutcome.panicked => 101

/-- `pub async fn run` (lib.rs:153-251): create the window (1280x720 logical),
build `State`, set `surface_configured = false`, then run the event loop.
`let _ = event_loop.run(...)` discards the loop's result, so `run` returns
normally whenever startup succeeded, whatever caused the loop to exit. -/
def run (env : Env) (events : List WindowEvent) : RunOutcome × List Action :=
  if h : env.initOk then
    let s0 : LoopState :=
      { st := State.new env.initial_size env.formats h.2.2.2
        surface_configured := false
        exited := false
        windowSize := env.initial_size }
    (RunOutcome.normal, (runEvents s0 events).2)
  else
    (RunOutcome.panicked, [])

/-! ### Derived definitions used by the claims -/

/-- Apply a sequence of `State::resize` calls, discarding the traces. -/
def applyResizes (s : State) (l : List PhysicalSize) : State :=
  List.foldl (fun t n => (State.resize t n).1) s l

/-- Modelled from the spec: "the most recently applied valid size", starting
from the current configuration size `cur` — a zero-dimension entry leaves the
running value unchanged, a valid entry replaces it. -/
def lastValidSize (cur : PhysicalSize) : List PhysicalSize → PhysicalSize
  | [] => cur
  | n :: rest =>
      lastValidSize (if 0 < n.width ∧ 0 < n.height then n else cur) rest

/-- Modelled from the spec: "the first sRGB-capable format offered by the
platform" (`none` when no offered format is sRGB-capable). -/
def firstSrgbFormat : List TextureFormat → Option TextureFormat
  | [] => none
  | f :: fs => if f.srgb then some f else firstSrgbFormat fs

/-! ### Helper lemmas -/

theorem applyResizes_cons (s : State) (n : PhysicalSize)
    (l : List PhysicalSize) :
    applyResizes s (n :: l) = applyResizes (State.resize s n).1 l := rfl

theorem resize_valid (s : State) (n : PhysicalSize)
    (hn : 0 < n.width ∧ 0 < n.height) :
    (State.resize s n).1 =
      { config :=
          { s.config with width := n.width, height := n.height }
        size := n } ∧
    (State.resize s n).2 = [Action.configure n.width n.height] := by
  constructor <;> simp [State.resize, hn]

theorem resize_zero (s : State) (n : PhysicalSize)
    (hn : ¬(0 < n.width ∧ 0 < n.height)) :
    State.resize s n = (s, []) := by
  simp [State.resize, hn]

theorem applyResizes_config (s : State) (l : List PhysicalSize) :
    (applyResizes s l).config.width =
      (lastValidSize ⟨s.config.width, s.config.height⟩ l).width ∧
    (applyResizes s l).config.height =
      (lastValidSize ⟨s.config.width, s.config.height⟩ l).height := by
  induction l generalizing s with
  | nil => exact ⟨rfl, rfl⟩
  | cons n rest ih =>
      rw [applyResizes_cons]
      by_cases hn : 0 < n.width ∧ 0 < n.height
      · have hr := (resize_valid s n hn).1
        rw [hr]
        simpa [lastValidSize, hn] using ih _
      · have hr : (State.resize s n).1 = s := by rw [resize_zero s n hn]
        rw [hr]
        simpa [lastValidSize, hn] using ih s

theorem lastValidSize_pos (cur : PhysicalSize)
    (hc : 0 < cur.width ∧ 0 < cur.height) (l : List PhysicalSize) :
    0 < (lastValidSize cur l).width ∧ 0 < (lastValidSize cur l).height := by
  induction l generalizing cur with
  | nil => exact hc
  | cons n rest ih =>
      by_cases hn : 0 < n.width ∧ 0 < n.height
      · simpa [lastValidSize, hn] using ih n hn
      · simpa [lastValidSize, hn] using ih cur hc

theorem applyResizes_agree (s : State)
    (hs : s.size.width = s.config.width ∧ s.size.height = s.config.height)
    (l : List PhysicalSize) :
    (applyResizes s l).size.width = (applyResizes s l).config.width ∧
    (applyResizes s l).size.height = (applyResizes s l).config.height := by
  induction l generalizing s with
  | nil => exact hs
  | cons n rest ih =>
      rw [applyResizes_cons]
      by_cases hn : 0 < n.width ∧ 0 < n.height
      · rw [(resize_valid s n hn).1]
        exact ih _ ⟨rfl, rfl⟩
      · have hr : (State.resize s n).1 = s := by rw [resize_zero s n hn]
        rw [hr]
        exact ih s hs

/-! ### Claim theorems -/

/-- C2: a resize with a zero dimension leaves the state (in particular the
surface configuration) untouched and performs no `surface.configure` call;
after any sequence of resize calls the configuration's width and height equal
the most recently applied valid size (the initial configuration size when no
valid resize occurred), and, the initial configuration being positive, they
stay positive throughout. -/
theorem c2_resize_config (s : State)
    (h : 0 < s.config.width ∧ 0 < s.config.height)
    (n : PhysicalSize) (hn : n.width = 0 ∨ n.height = 0)
    (l : List PhysicalSize) :
    State.resize s n = (s, []) ∧
    (applyResizes s l).config.width =
      (lastValidSize ⟨s.config.width, s.config.height⟩ l).width ∧
    (applyResizes s l).config.height =
      (lastValidSize ⟨s.config.width, s.config.height⟩ l).height ∧
    0 < (applyResizes s l).config.width ∧
    0 < (applyResizes s l).config.height := by
  have hz : ¬(0 < n.width ∧ 0 < n.height) := by
    rcases hn with hn | hn <;> simp [hn]
  have hcfg := applyResizes_config s l
  have hpos := lastValidSize_pos ⟨s.config.width, s.config.height⟩ h l
  exact ⟨resize_zero s n hz, hcfg.1, hcfg.2,
    hcfg.1 ▸ hpos.1, hcfg.2 ▸ hpos.2⟩

/-- Witness for C2 at a concrete state and resize sequence. -/
theorem c2_resize_config_witness :
    State.resize (State.new ⟨1280, 720⟩ [⟨7, true⟩] (by decide)) ⟨0, 720⟩ =
        (State.new ⟨1280, 720⟩ [⟨7, true⟩] (by decide), []) ∧
    (applyResizes (State.new ⟨1280, 720⟩ [⟨7, true⟩] (by decide))
        [⟨0, 500⟩, ⟨800, 600⟩]).config.width =
      (lastValidSize ⟨1280, 720⟩ [⟨0, 500⟩, ⟨800, 600⟩]).width ∧
    (applyResizes (State.new ⟨1280, 720⟩ [⟨7, true⟩] (by decide))
        [⟨0, 500⟩, ⟨800, 600⟩]).config.height =
      (lastValidSize ⟨1280, 720⟩ [⟨0, 500⟩, ⟨800, 600⟩]).height ∧
    0 < (applyResizes (State.new ⟨1280, 720⟩ [⟨7, true⟩] (by decide))
        [⟨0, 500⟩, ⟨800, 600⟩]).config.width ∧
    0 < (applyResizes (State.new ⟨1280, 720⟩ [⟨7, true⟩] (by decide))
        [⟨0, 500⟩, ⟨800, 600⟩]).config.height :=
  c2_resize_config (State.new ⟨1280, 720⟩ [⟨7, true⟩] (by decide))
    ⟨by decide, by decide⟩ ⟨0, 720⟩ (Or.inl rfl) [⟨0, 500⟩, ⟨800, 600⟩]

/-- C10: after `State::new` and after every sequence of `State::resize` calls,
the stored `size` field equals the configuration's `(width, height)` pair —
they never diverge. -/
theorem c10_size_mirrors_config (size : PhysicalSize)
    (formats : List TextureFormat) (h : formats ≠ [])
    (l : List PhysicalSize) :
    (State.new size formats h).size.width =
        (State.new size formats h).config.width ∧
    (State.new size formats h).size.height =
        (State.new size formats h).config.height ∧
    (applyResizes (State.new size formats h) l).size.width =
      (applyResizes (State.new size formats h) l).config.width ∧
    (applyResizes (State.new size formats h) l).size.height =
      (applyResizes (State.new size formats h) l).config.height := by
  have hbase : (State.new size formats h).size.width =
      (State.new size formats h).config.width ∧
      (State.new size formats h).size.height =
      (State.new size formats h).config.height := ⟨rfl, rfl⟩
  have := applyResizes_agree (State.new size formats h) hbase l
  exact ⟨hbase.1, hbase.2, this.1, this.2⟩

/-- Witness for C10 at a concrete initial size and resize sequence. -/
theorem c10_size_mirrors_config_witness :
    (State.new ⟨1280, 720⟩ [⟨7, true⟩] (by decide)).size.width =
        (State.new ⟨1280, 720⟩ [⟨7, true⟩] (by decide)).config.width ∧
    (State.new ⟨1280, 720⟩ [⟨7, true⟩] (by decide)).size.height =
        (State.new ⟨1280, 720⟩ [⟨7, true⟩] (by decide)).config.height ∧
    (applyResizes (State.new ⟨1280, 720⟩ [⟨7, true⟩] (by decide))
        [⟨800, 600⟩, ⟨0, 50⟩]).size.width =
      (applyResizes (State.new ⟨1280, 720⟩ [⟨7, true⟩] (by decide))
        [⟨800, 600⟩, ⟨0, 50⟩]).config.width ∧
    (applyResizes (State.new ⟨1280, 720⟩ [⟨7, true⟩] (by decide))
        [⟨800, 600⟩, ⟨0, 50⟩]).size.height =
      (applyResizes (State.new ⟨1280, 720⟩ [⟨7, true⟩] (by decide))
        [⟨800, 600⟩, ⟨0, 50⟩]).config.height :=
  c10_size_mirrors_config ⟨1280, 720⟩ [⟨7, true⟩] (by decide)
    [⟨800, 600⟩, ⟨0, 50⟩]

/-- C8: a successful `State::render` performs, in order, exactly: acquire one
drawable, record one render pass clearing it to `clear_color` with zero draw
calls, submit, present the drawable at the configuration's dimensions; it
presents exactly once and leaves the `State` (the process-visible state)
unchanged. -/
theorem c8_render_effects (s : State) :
    (State.render s none).2.2 =
      [Action.acquire, Action.renderPass clear_color 0, Action.submit,
       Action.present s.config.width s.config.height] ∧
    ((State.render s none).2.2.filter Action.isPresent).length = 1 ∧
    ((State.render s none).2.2.filter Action.isRenderCall).length = 1 ∧
    ((State.render s none).2.2.filter Action.isConfigure).length = 0 ∧
    (State.render s none).2.1 = s ∧
    (State.render s none).1 = none := by
  refine ⟨rfl, ?_, ?_, ?_, rfl, rfl⟩ <;>
    simp [State.render, Action.isPresent, Action.isRenderCall,
      Action.isConfigure]

theorem find_srgb_eq_firstSrgbFormat (l : List TextureFormat) :
    l.find? (fun f => f.srgb) = firstSrgbFormat l := by
  induction l with
  | nil => rfl
  | cons a rest ih =>
      by_cases ha : a.srgb = true
      · simp [List.find?_cons, firstSrgbFormat, ha]
      · simp only [Bool.not_eq_true] at ha
        simp [List.find?_cons, firstSrgbFormat, ha, ih]

theorem firstSrgbFormat_is_first (l : List TextureFormat) :
    (∀ f, firstSrgbFormat l = some f →
      ∃ i, ∃ hi : i < l.length, l[i] = f ∧ f.srgb = true ∧
        ∀ j, ∀ hj : j < l.length, j < i → l[j].srgb = false) ∧
    (firstSrgbFormat l = none → ∀ f ∈ l, f.srgb = false) := by
  induction l with
  | nil =>
      refine ⟨fun f hf => by simp [firstSrgbFormat] at hf, fun _ f hf => ?_⟩
      exact absurd hf (List.not_mem_nil f)
  | cons a rest ih =>
      constructor
      · intro f hf
        by_cases ha : a.srgb = true
        · rw [show firstSrgbFormat (a :: rest) = some a by
            simp [firstSrgbFormat, ha]] at hf
          obtain rfl : a = f := by injection hf
          exact ⟨0, by simp, rfl, ha, fun j hj hj0 => absurd hj0 (by omega)⟩
        · simp only [Bool.not_eq_true] at ha
          rw [show firstSrgbFormat (a :: rest) = firstSrgbFormat rest by
            simp [firstSrgbFormat, ha]] at hf
          obtain ⟨i, hi, hget, hsrgb, hbefore⟩ := ih.1 f hf
          refine ⟨i + 1, by simpa using Nat.succ_lt_succ hi, by simpa using hget,
            hsrgb, ?_⟩
          intro j hj hji
          match j with
          | 0 => simpa using ha
          | k + 1 =>
              have hk : k < rest.length := by simpa using hj
              have : rest[k].srgb = false := hbefore k hk (by omega)
              simpa using this
      · intro hf f hmem
        by_cases ha : a.srgb = true
        · rw [show firstSrgbFormat (a :: rest) = some a by
            simp [firstSrgbFormat, ha]] at hf
          exact absurd hf (by simp)
        · simp only [Bool.not_eq_true] at ha
          rw [show firstSrgbFormat (a :: rest) = firstSrgbFormat rest by
            simp [firstSrgbFormat, ha]] at hf
          rcases List.mem_cons.mp hmem with rfl | hmem
          · exact ha
          · exact ih.2 hf f hmem

/-- C9: the chosen surface format is the first sRGB-capable format of the
platform's offered list; when no offered format is sRGB-capable it is the
first format of the list. -/
theorem c9_surface_format_choice (formats : List TextureFormat)
    (h : formats ≠ []) :
    surface_format formats h =
      (firstSrgbFormat formats).getD
        (formats.get ⟨0, List.length_pos.mpr h⟩) ∧
    (∀ f, firstSrgbFormat formats = some f →
      ∃ i, ∃ hi : i < formats.length, formats[i] = f ∧ f.srgb = true ∧
        ∀ j, ∀ hj : j < formats.length, j < i → formats[j].srgb = false) ∧
    (firstSrgbFormat formats = none → ∀ f ∈ formats, f.srgb = false) := by
  refine ⟨?_, (firstSrgbFormat_is_first formats).1,
    (firstSrgbFormat_is_first formats).2⟩
  unfold surface_format
  rw [find_srgb_eq_firstSrgbFormat]

/-- A concrete offered-format list: the second entry is the first
sRGB-capable one. -/
def formats9 : List TextureFormat := [⟨5, false⟩, ⟨6, true⟩, ⟨7, true⟩]

/-- Witness for C9 at the concrete format list `formats9`. -/
theorem c9_surface_format_choice_witness :
    surface_format formats9 (by decide) =
      (firstSrgbFormat formats9).getD
        (formats9.get ⟨0, List.length_pos.mpr (by decide)⟩) ∧
    (∀ f, firstSrgbFormat formats9 = some f →
      ∃ i, ∃ hi : i < formats9.length, formats9[i] = f ∧ f.srgb = true ∧
        ∀ j, ∀ hj : j < formats9.length, j < i → formats9[j].srgb = false) ∧
    (firstSrgbFormat formats9 = none → ∀ f ∈ formats9, f.srgb = false) :=
  c9_surface_format_choice formats9 (by decide)

/-- C7: when `State::render` returns `Timeout`, the driver only logs: the
dispatch leaves the whole loop state (surface configuration and stored size
included) unchanged, performs exactly one render call (no retry), no
`surface.configure` call, no present, and does not exit. -/
theorem c7_timeout_skips_frame (ls : LoopState)
    (h : ls.surface_configured = true) :
    step ls (WindowEvent.RedrawRequested (some SurfaceError.Timeout)) =
      (ls, [Action.acquireErr SurfaceError.Timeout]) ∧
    (step ls (WindowEvent.RedrawRequested (some SurfaceError.Timeout))).1.st.config
      = ls.st.config ∧
    (step ls (WindowEvent.RedrawRequested (some SurfaceError.Timeout))).1.st.size
      = ls.st.size ∧
    ((step ls (WindowEvent.RedrawRequested
        (some SurfaceError.Timeout))).2.filter Action.isRenderCall).length = 1 ∧
    ((step ls (WindowEvent.RedrawRequested
        (some SurfaceError.Timeout))).2.filter Action.isConfigure).length = 0 ∧
    ((step ls (WindowEvent.RedrawRequested
        (some SurfaceError.Timeout))).2.filter Action.isPresent).length = 0 ∧
    (step ls (WindowEvent.RedrawRequested
        (some SurfaceError.Timeout))).1.exited = ls.exited := by
  have hs : step ls (WindowEvent.RedrawRequested (some SurfaceError.Timeout)) =
      (ls, [Action.acquireErr SurfaceError.Timeout]) := by
    obtain ⟨st, sc, ex, ws⟩ := ls
    simp only at h
    subst h
    simp [step, State.render]
  refine ⟨hs, ?_, ?_, ?_, ?_, ?_, ?_⟩ <;>
    simp [hs, Action.isRenderCall, Action.isConfigure, Action.isPresent]

/-- Witness for C7 at a concrete configured loop state. -/
theorem c7_timeout_skips_frame_witness :
    step ⟨State.new ⟨1280, 720⟩ [⟨7, true⟩] (by decide), true, false, ⟨1280, 720⟩⟩
        (WindowEvent.RedrawRequested (some SurfaceError.Timeout)) =
      (⟨State.new ⟨1280, 720⟩ [⟨7, true⟩] (by decide), true, false, ⟨1280, 720⟩⟩,
       [Action.acquireErr SurfaceError.Timeout]) ∧
    (step ⟨State.new ⟨1280, 720⟩ [⟨7, true⟩] (by decide), true, false, ⟨1280, 720⟩⟩
        (WindowEvent.RedrawRequested (some SurfaceError.Timeout))).1.st.config =
      (State.new ⟨1280, 720⟩ [⟨7, true⟩] (by decide)).config ∧
    (step ⟨State.new ⟨1280, 720⟩ [⟨7, true⟩] (by decide), true, false, ⟨1280, 720⟩⟩
        (WindowEvent.RedrawRequested (some SurfaceError.Timeout))).1.st.size =
      (State.new ⟨1280, 720⟩ [⟨7, true⟩] (by decide)).size ∧
    ((step ⟨State.new ⟨1280, 720⟩ [⟨7, true⟩] (by decide), true, false, ⟨1280, 720⟩⟩
        (WindowEvent.RedrawRequested
          (some SurfaceError.Timeout))).2.filter Action.isRenderCall).length = 1 ∧
    ((step ⟨State.new ⟨1280, 720⟩ [⟨7, true⟩] (by decide), true, false, ⟨1280, 720⟩⟩
        (WindowEvent.RedrawRequested
          (some SurfaceError.Timeout))).2.filter Action.isConfigure).length = 0 ∧
    ((step ⟨State.new ⟨1280, 720⟩ [⟨7, true⟩] (by decide), true, false, ⟨1280, 720⟩⟩
        (WindowEvent.RedrawRequested
          (some SurfaceError.Timeout))).2.filter Action.isPresent).length = 0 ∧
    (step ⟨State.new ⟨1280, 720⟩ [⟨7, true⟩] (by decide), true, false, ⟨1280, 720⟩⟩
        (WindowEvent.RedrawRequested
          (some SurfaceError.Timeout))).1.exited = false :=
  c7_timeout_skips_frame
    ⟨State.new ⟨1280, 720⟩ [⟨7, true⟩] (by decide), true, false, ⟨1280, 720⟩⟩ rfl

/-- C5: when `State::render` returns `Lost` or `Outdated` (and the stored size
is positive, as it always is after a positive initial size), the dispatch's
trace is exactly one failed render call followed by a `surface.configure`
with the last known size — so the surface is reconfigured before any further
present attempt; the loop does not exit, and the failed frame is not retried
within the same tick (exactly one render call, no present). -/
theorem c5_lost_outdated_reconfigures (ls : LoopState) (err : SurfaceError)
    (herr : err = SurfaceError.Lost ∨ err = SurfaceError.Outdated)
    (hconf : ls.surface_configured = true)
    (hw : 0 < ls.st.size.width) (hh : 0 < ls.st.size.height) :
    (step ls (WindowEvent.RedrawRequested (some err))).2 =
      [Action.acquireErr err,
       Action.configure ls.st.size.width ls.st.size.height] ∧
    (step ls (WindowEvent.RedrawRequested (some err))).1.exited = ls.exited ∧
    ((step ls (WindowEvent.RedrawRequested
        (some err))).2.filter Action.isRenderCall).length = 1 ∧
    ((step ls (WindowEvent.RedrawRequested
        (some err))).2.filter Action.isPresent).length = 0 := by
  rcases herr with rfl | rfl <;>
    refine ⟨?_, ?_, ?_, ?_⟩ <;>
      simp [step, State.render, State.resize, hconf, hw, hh,
        Action.isRenderCall, Action.isPresent]

/-- Witness for C5 at a concrete configured loop state and the `Lost` error. -/
theorem c5_lost_outdated_reconfigures_witness :
    (step ⟨State.new ⟨1280, 720⟩ [⟨7, true⟩] (by decide), true, false, ⟨1280, 720⟩⟩
        (WindowEvent.RedrawRequested (some SurfaceError.Lost))).2 =
      [Action.acquireErr SurfaceError.Lost, Action.configure 1280 720] ∧
    (step ⟨State.new ⟨1280, 720⟩ [⟨7, true⟩] (by decide), true, false, ⟨1280, 720⟩⟩
        (WindowEvent.RedrawRequested (some SurfaceError.Lost))).1.exited = false ∧
    ((step ⟨State.new ⟨1280, 720⟩ [⟨7, true⟩] (by decide), true, false, ⟨1280, 720⟩⟩
        (WindowEvent.RedrawRequested
          (some SurfaceError.Lost))).2.filter Action.isRenderCall).length = 1 ∧
    ((step ⟨State.new ⟨1280, 720⟩ [⟨7, true⟩] (by decide), true, false, ⟨1280, 720⟩⟩
        (WindowEvent.RedrawRequested
          (some SurfaceError.Lost))).2.filter Action.isPresent).length = 0 :=
  c5_lost_outdated_reconfigures
    ⟨State.new ⟨1280, 720⟩ [⟨7, true⟩] (by decide), true, false, ⟨1280, 720⟩⟩
    SurfaceError.Lost (Or.inl rfl) rfl (by decide) (by decide)

/-- Is the first `OutOfMemory` render failure of the trace (if any) followed
by no further render call?  `true` on traces with no such failure. -/
def noRenderAfterOOM : List Action → Bool
  | [] => true
  | Action.acquireErr SurfaceError.OutOfMemory :: rest =>
      rest.all (fun a => !a.isRenderCall)
  | _ :: rest => noRenderAfterOOM rest

theorem runEvents_of_exited (ls : LoopState) (h : ls.exited = true)
    (events : List WindowEvent) : runEvents ls events = (ls, []) := by
  cases events with
  | nil => rfl
  | cons e es => simp [runEvents, h]

theorem noRenderAfterOOM_append (t r : List Action)
    (h : Action.acquireErr SurfaceError.OutOfMemory ∉ t) :
    noRenderAfterOOM (t ++ r) = noRenderAfterOOM r := by
  induction t with
  | nil => rfl
  | cons a t2 ih =>
      have ha : a ≠ Action.acquireErr SurfaceError.OutOfMemory :=
        fun hh => h (hh ▸ List.mem_cons_self a t2)
      have ht : Action.acquireErr SurfaceError.OutOfMemory ∉ t2 :=
        fun hh => h (List.mem_cons_of_mem a hh)
      rw [List.cons_append]
      cases a with
      | acquireErr e =>
          cases e with
          | OutOfMemory => exact absurd rfl ha
          | Lost => simpa [noRenderAfterOOM] using ih ht
          | Outdated => simpa [noRenderAfterOOM] using ih ht
          | Timeout => simpa [noRenderAfterOOM] using ih ht
      | configure w hh => simpa [noRenderAfterOOM] using ih ht
      | windowResized w hh => simpa [noRenderAfterOOM] using ih ht
      | acquire => simpa [noRenderAfterOOM] using ih ht
      | renderPass c d => simpa [noRenderAfterOOM] using ih ht
      | submit => simpa [noRenderAfterOOM] using ih ht
      | present w hh => simpa [noRenderAfterOOM] using ih ht
      | exitLoop c => simpa [noRenderAfterOOM] using ih ht

theorem runEvents_noRenderAfterOOM (events : List WindowEvent)
    (ls : LoopState) :
    noRenderAfterOOM (runEvents ls events).2 = true := by
  induction events generalizing ls with
  | nil => rfl
  | cons e es ih =>
      by_cases hex : ls.exited = true
      · simp [runEvents, hex, noRenderAfterOOM]
      · have hrun : runEvents ls (e :: es) =
            ((runEvents (step ls e).1 es).1,
             (step ls e).2 ++ (runEvents (step ls e).1 es).2) := by
          simp [runEvents, hex]
        rw [hrun]
        cases e with
        | CloseRequested =>
            rw [runEvents_of_exited _ (by simp [step]) es]
            simp [step, noRenderAfterOOM]
        | KeyboardInput pressed escape =>
            by_cases hk : (pressed && escape) = true
            · rw [show (step ls (WindowEvent.KeyboardInput pressed escape)) =
                  ({ ls with exited := true },
                   [Action.exitLoop ExitCause.escapeKey]) by simp [step, hk]]
              rw [runEvents_of_exited _ rfl es]
              simp [noRenderAfterOOM]
            · rw [show (step ls (WindowEvent.KeyboardInput pressed escape)) =
                  (ls, []) by simp [step, hk]]
              simpa using ih ls
        | Resized w h =>
            by_cases hwh : 0 < w ∧ 0 < h
            · rw [noRenderAfterOOM_append _ _ (by
                simp [step, State.resize, hwh])]
              exact ih _
            · rw [noRenderAfterOOM_append _ _ (by
                simp [step, State.resize, hwh])]
              exact ih _
        | Other => simpa [step] using ih ls
        | RedrawRequested acq =>
            by_cases hc : ls.surface_configured = true
            · cases acq with
              | none =>
                  rw [noRenderAfterOOM_append _ _ (by
                    simp [step, State.render, hc])]
                  exact ih _
              | some err =>
                  cases err with
                  | Lost =>
                      by_cases hsz : 0 < ls.st.size.width ∧ 0 < ls.st.size.height
                      · rw [noRenderAfterOOM_append _ _ (by
                          simp [step, State.render, State.resize, hc, hsz])]
                        exact ih _
                      · rw [noRenderAfterOOM_append _ _ (by
                          simp [step, State.render, State.resize, hc, hsz])]
                        exact ih _
                  | Outdated =>
                      by_cases hsz : 0 < ls.st.size.width ∧ 0 < ls.st.size.height
                      · rw [noRenderAfterOOM_append _ _ (by
                          simp [step, State.render, State.resize, hc, hsz])]
                        exact ih _
                      · rw [noRenderAfterOOM_append _ _ (by
                          simp [step, State.render, State.resize, hc, hsz])]
                        exact ih _
                  | Timeout =>
                      rw [noRenderAfterOOM_append _ _ (by
                        simp [step, State.render, hc])]
                      exact ih _
                  | OutOfMemory =>
                      rw [show (step ls (WindowEvent.RedrawRequested
                            (some SurfaceError.OutOfMemory))) =
                          ({ ls with exited := true },
                           [Action.acquireErr SurfaceError.OutOfMemory,
                            Action.exitLoop ExitCause.outOfMemory]) by
                        simp [step, State.render, hc]]
                      rw [runEvents_of_exited _ rfl es]
                      simp [noRenderAfterOOM, Action.isRenderCall]
            · rw [show (step ls (WindowEvent.RedrawRequested acq)) = (ls, [])
                by simp [step, hc]]
              simpa using ih ls

/-- C6: a render call that returns `OutOfMemory` sets the exit flag of the
event loop in that very dispatch, and in every trace the event loop produces,
no render call ever occurs after an `OutOfMemory` render failure. -/
theorem c6_oom_terminates (ls : LoopState) (events : List WindowEvent)
    (hconf : ls.surface_configured = true) :
    (step ls (WindowEvent.RedrawRequested
        (some SurfaceError.OutOfMemory))).1.exited = true ∧
    Action.exitLoop ExitCause.outOfMemory ∈
      (step ls (WindowEvent.RedrawRequested
        (some SurfaceError.OutOfMemory))).2 ∧
    noRenderAfterOOM (runEvents ls events).2 = true := by
  refine ⟨?_, ?_, runEvents_noRenderAfterOOM events ls⟩ <;>
    simp [step, State.render, hconf]

/-- Witness for C6 at a concrete configured loop state and an event list that
hits the `OutOfMemory` branch and then asks for two more frames. -/
theorem c6_oom_terminates_witness :
    (step ⟨State.new ⟨1280, 720⟩ [⟨7, true⟩] (by decide), true, false, ⟨1280, 720⟩⟩
        (WindowEvent.RedrawRequested
          (some SurfaceError.OutOfMemory))).1.exited = true ∧
    Action.exitLoop ExitCause.outOfMemory ∈
      (step ⟨State.new ⟨1280, 720⟩ [⟨7, true⟩] (by decide), true, false, ⟨1280, 720⟩⟩
        (WindowEvent.RedrawRequested (some SurfaceError.OutOfMemory))).2 ∧
    noRenderAfterOOM
      (runEvents
        ⟨State.new ⟨1280, 720⟩ [⟨7, true⟩] (by decide), true, false, ⟨1280, 720⟩⟩
        [WindowEvent.RedrawRequested (some SurfaceError.OutOfMemory),
         WindowEvent.RedrawRequested none,
         WindowEvent.RedrawRequested none]).2 = true :=
  c6_oom_terminates
    ⟨State.new ⟨1280, 720⟩ [⟨7, true⟩] (by decide), true, false, ⟨1280, 720⟩⟩
    [WindowEvent.RedrawRequested (some SurfaceError.OutOfMemory),
     WindowEvent.RedrawRequested none,
     WindowEvent.RedrawRequested none] rfl

/-- Walk a trace tracking the window's physical size (as reported by the
platform's `Resized` events, starting from `win`): does every presented frame
have exactly the window's current physical dimensions? -/
def presentsMatch (win : PhysicalSize) : List Action → Bool
  | [] => true
  | Action.windowResized w h :: rest => presentsMatch ⟨w, h⟩ rest
  | Action.present w h :: rest =>
      (w == win.width && h == win.height) && presentsMatch win rest
  | _ :: rest => presentsMatch win rest

/-- Does the event respect the spec's restriction to positive dimensions?
(`true` for every non-resize event.) -/
def WindowEvent.validResize : WindowEvent → Bool
  | WindowEvent.Resized w h => decide (0 < w ∧ 0 < h)
  | _ => true

/-- The loop-state consistency the driver maintains while all reported sizes
are positive: the configuration mirrors the window's physical size, and so
does the stored size. -/
def consistent (ls : LoopState) : Prop :=
  ls.st.config.width = ls.windowSize.width ∧
  ls.st.config.height = ls.windowSize.height ∧
  ls.st.size = ls.windowSize

/-- A GPU/platform environment in which startup succeeds, with a 1280x720
window. -/
def envOk : Env :=
  { surface_ok := true
    adapter_ok := true
    device_ok := true
    formats := [⟨7, true⟩]
    initial_size := ⟨1280, 720⟩ }

theorem presentsMatch_skip (win : PhysicalSize) (t r : List Action)
    (h : ∀ a ∈ t, a.isPresent = false ∧
      ∀ w hh : Nat, a ≠ Action.windowResized w hh) :
    presentsMatch win (t ++ r) = presentsMatch win r := by
  induction t with
  | nil => rfl
  | cons a t2 ih =>
      have ha := h a (List.mem_cons_self a t2)
      have ht : ∀ a ∈ t2, a.isPresent = false ∧
          ∀ w hh : Nat, a ≠ Action.windowResized w hh :=
        fun x hx => h x (List.mem_cons_of_mem a hx)
      rw [List.cons_append]
      cases a with
      | windowResized w hh => exact absurd rfl (ha.2 w hh)
      | present w hh => simp [Action.isPresent] at ha
      | configure w hh => simpa [presentsMatch] using ih ht
      | acquire => simpa [presentsMatch] using ih ht
      | acquireErr e => simpa [presentsMatch] using ih ht
      | renderPass c d => simpa [presentsMatch] using ih ht
      | submit => simpa [presentsMatch] using ih ht
      | exitLoop c => simpa [presentsMatch] using ih ht

theorem runEvents_presentsMatch (events : List WindowEvent)
    (ls : LoopState) (hcons : consistent ls)
    (hvalid : events.all WindowEvent.validResize = true) :
    presentsMatch ls.windowSize (runEvents ls events).2 = true := by
  induction events generalizing ls with
  | nil => rfl
  | cons e es ih =>
      have hall := hvalid
      rw [List.all_cons, Bool.and_eq_true] at hall
      obtain ⟨hce, hces⟩ := hall
      by_cases hex : ls.exited = true
      · simp [runEvents, hex, presentsMatch]
      · have hrun : runEvents ls (e :: es) =
            ((runEvents (step ls e).1 es).1,
             (step ls e).2 ++ (runEvents (step ls e).1 es).2) := by
          simp [runEvents, hex]
        rw [hrun]
        obtain ⟨hcw, hch, hcs⟩ := hcons
        cases e with
        | CloseRequested =>
            rw [runEvents_of_exited _ (by simp [step]) es]
            simp [step, presentsMatch]
        | KeyboardInput pressed escape =>
            by_cases hk : (pressed && escape) = true
            · rw [show (step ls (WindowEvent.KeyboardInput pressed escape)) =
                  ({ ls with exited := true },
                   [Action.exitLoop ExitCause.escapeKey]) by simp [step, hk]]
              rw [runEvents_of_exited _ rfl es]
              simp [presentsMatch]
            · rw [show (step ls (WindowEvent.KeyboardInput pressed escape)) =
                  (ls, []) by simp [step, hk]]
              simpa using ih ls ⟨hcw, hch, hcs⟩ hces
        | Other => simpa [step] using ih ls ⟨hcw, hch, hcs⟩ hces
        | Resized w h =>
            have hwh : 0 < w ∧ 0 < h := by
              simpa [WindowEvent.validResize] using hce
            have hstep : step ls (WindowEvent.Resized w h) =
                ({ ls with
                    st := { config := { ls.st.config with
                              width := w, height := h }
                            size := ⟨w, h⟩ }
                    surface_configured := true
                    windowSize := ⟨w, h⟩ },
                 [Action.windowResized w h, Action.configure w h]) := by
              simp [step, State.resize, hwh]
            rw [hstep]
            have := ih ({ ls with
                st := { config := { ls.st.config with
                          width := w, height := h }
                        size := ⟨w, h⟩ }
                surface_configured := true
                windowSize := ⟨w, h⟩ }) ⟨rfl, rfl, rfl⟩ hces
            simpa [presentsMatch] using this
        | RedrawRequested acq =>
            by_cases hc : ls.surface_configured = true
            · cases acq with
              | none =>
                  have hstep : step ls (WindowEvent.RedrawRequested none) =
                      (ls, [Action.acquire, Action.renderPass clear_color 0,
                            Action.submit,
                            Action.present ls.st.config.width
                              ls.st.config.height]) := by
                    obtain ⟨st, sc, ex, ws⟩ := ls
                    simp only at hc
                    subst hc
                    simp [step, State.render]
                  rw [hstep]
                  have hr := ih ls ⟨hcw, hch, hcs⟩ hces
                  simp only [List.cons_append, List.nil_append, presentsMatch]
                  rw [hcw, hch]
                  simpa [presentsMatch] using hr
              | some err =>
                  cases err with
                  | OutOfMemory =>
                      rw [show (step ls (WindowEvent.RedrawRequested
                            (some SurfaceError.OutOfMemory))) =
                          ({ ls with exited := true },
                           [Action.acquireErr SurfaceError.OutOfMemory,
                            Action.exitLoop ExitCause.outOfMemory]) by
                        simp [step, State.render, hc]]
                      rw [runEvents_of_exited _ rfl es]
                      simp [presentsMatch]
                  | Timeout =>
                      have hstep : step ls (WindowEvent.RedrawRequested
                          (some SurfaceError.Timeout)) =
                          (ls, [Action.acquireErr SurfaceError.Timeout]) := by
                        obtain ⟨st, sc, ex, ws⟩ := ls
                        simp only at hc
                        subst hc
                        simp [step, State.render]
                      rw [hstep]
                      simpa [presentsMatch] using ih ls ⟨hcw, hch, hcs⟩ hces
                  | Lost =>
                      by_cases hsz : 0 < ls.st.size.width ∧ 0 < ls.st.size.height
                      · have hstep : step ls (WindowEvent.RedrawRequested
                            (some SurfaceError.Lost)) =
                            ({ ls with st :=
                                { config := { ls.st.config with
                                    width := ls.st.size.width,
                                    height := ls.st.size.height }
                                  size := ls.st.size } },
                             [Action.acquireErr SurfaceError.Lost,
                              Action.configure ls.st.size.width
                                ls.st.size.height]) := by
                          simp [step, State.render, State.resize, hc, hsz]
                        rw [hstep]
                        have := ih _ (show consistent ({ ls with st :=
                            { config := { ls.st.config with
                                width := ls.st.size.width,
                                height := ls.st.size.height }
                              size := ls.st.size } }) by
                          exact ⟨by simp [hcs], by simp [hcs], by simp [hcs]⟩) hces
                        simpa [presentsMatch] using this
                      · have hstep : step ls (WindowEvent.RedrawRequested
                            (some SurfaceError.Lost)) =
                            (ls, [Action.acquireErr SurfaceError.Lost]) := by
                          obtain ⟨st, sc, ex, ws⟩ := ls
                          simp only at hc hsz
                          subst hc
                          simp [step, State.render, State.resize, hsz]
                        rw [hstep]
                        simpa [presentsMatch] using ih ls ⟨hcw, hch, hcs⟩ hces
                  | Outdated =>
                      by_cases hsz : 0 < ls.st.size.width ∧ 0 < ls.st.size.height
                      · have hstep : step ls (WindowEvent.RedrawRequested
                            (some SurfaceError.Outdated)) =
                            ({ ls with st :=
                                { config := { ls.st.config with
                                    width := ls.st.size.width,
                                    height := ls.st.size.height }
                                  size := ls.st.size } },
                             [Action.acquireErr SurfaceError.Outdated,
                              Action.configure ls.st.size.width
                                ls.st.size.height]) := by
                          simp [step, State.render, State.resize, hc, hsz]
                        rw [hstep]
                        have := ih _ (show consistent ({ ls with st :=
                            { config := { ls.st.config with
                                width := ls.st.size.width,
                                height := ls.st.size.height }
                              size := ls.st.size } }) by
                          exact ⟨by simp [hcs], by simp [hcs], by simp [hcs]⟩) hces
                        simpa [presentsMatch] using this
                      · have hstep : step ls (WindowEvent.RedrawRequested
                            (some SurfaceError.Outdated)) =
                            (ls, [Action.acquireErr SurfaceError.Outdated]) := by
                          obtain ⟨st, sc, ex, ws⟩ := ls
                          simp only at hc hsz
                          subst hc
                          simp [step, State.render, State.resize, hsz]
                        rw [hstep]
                        simpa [presentsMatch] using ih ls ⟨hcw, hch, hcs⟩ hces
            · rw [show (step ls (WindowEvent.RedrawRequested acq)) = (ls, [])
                by simp [step, hc]]
              simpa using ih ls ⟨hcw, hch, hcs⟩ hces

/-- C3, counterexample: a `Resized(0, 720)` event (window minimized
horizontally) leaves the configuration at 1280x720, yet the next
`render_frame` still runs and presents a 1280x720 frame while the window's
physical size is (0, 720) — the claim's "including when the resize event
carried a zero dimension" fails. -/
theorem c3_counterexample :
    Action.present 1280 720 ∈
      (run envOk [WindowEvent.Resized 1280 720, WindowEvent.Resized 0 720,
        WindowEvent.RedrawRequested none]).2 ∧
    presentsMatch envOk.initial_size
      (run envOk [WindowEvent.Resized 1280 720, WindowEvent.Resized 0 720,
        WindowEvent.RedrawRequested none]).2 = false := by
  constructor
  · simp [run, envOk, Env.initOk, runEvents, step, State.resize, State.render,
      State.new]
  · rfl

/-- C3, amended: provided every resize event carries positive dimensions,
every resize is applied to the presenter before the next `render_frame`, and
no presented frame ever has dimensions different from the window's current
physical size. -/
theorem c3_resize_before_render (env : Env) (events : List WindowEvent)
    (hvalid : events.all WindowEvent.validResize = true) :
    presentsMatch env.initial_size (run env events).2 = true := by
  by_cases h : env.initOk
  · rw [show run env events =
        (RunOutcome.normal,
         (runEvents
           ⟨State.new env.initial_size env.formats h.2.2.2, false, false,
            env.initial_size⟩ events).2) from by simp [run, h]]
    exact runEvents_presentsMatch events
      ⟨State.new env.initial_size env.formats h.2.2.2, false, false,
       env.initial_size⟩ ⟨rfl, rfl, rfl⟩ hvalid
  · rw [show run env events = (RunOutcome.panicked, []) from by simp [run, h]]
    rfl

/-- Witness for the amended C3: a valid resize to 800x600 followed by a
successful frame. -/
theorem c3_resize_before_render_witness :
    presentsMatch envOk.initial_size
      (run envOk [WindowEvent.Resized 800 600,
        WindowEvent.RedrawRequested none]).2 = true :=
  c3_resize_before_render envOk
    [WindowEvent.Resized 800 600, WindowEvent.RedrawRequested none]
    (by decide)

/-- C4, counterexample: starting from the freshly initialized 1280x720 state,
three redraw ticks with no intervening events present NOTHING — `State::new`
never configures the surface, `surface_configured` is still `false`, so every
redraw returns early: zero render calls and zero presents, not three. -/
theorem c4_counterexample :
    (run envOk [WindowEvent.RedrawRequested none,
      WindowEvent.RedrawRequested none,
      WindowEvent.RedrawRequested none]).2 = [] ∧
    ((run envOk [WindowEvent.RedrawRequested none,
      WindowEvent.RedrawRequested none,
      WindowEvent.RedrawRequested none]).2.filter Action.isPresent).length
      = 0 := by
  constructor <;> rfl

/-- C4, amended: once the initial `Resized(1280, 720)` event has configured
the surface, three redraw ticks with no intervening events produce exactly
three successful presents at 1280x720, every render pass clears to the same
`clear_color` constant, and no reconfiguration call occurs after the initial
one. -/
theorem c4_three_frames :
    (run envOk [WindowEvent.Resized 1280 720,
      WindowEvent.RedrawRequested none, WindowEvent.RedrawRequested none,
      WindowEvent.RedrawRequested none]).2 =
      [Action.windowResized 1280 720, Action.configure 1280 720,
       Action.acquire, Action.renderPass clear_color 0, Action.submit,
       Action.present 1280 720,
       Action.acquire, Action.renderPass clear_color 0, Action.submit,
       Action.present 1280 720,
       Action.acquire, Action.renderPass clear_color 0, Action.submit,
       Action.present 1280 720] ∧
    ((run envOk [WindowEvent.Resized 1280 720,
      WindowEvent.RedrawRequested none, WindowEvent.RedrawRequested none,
      WindowEvent.RedrawRequested none]).2.filter Action.isPresent).length
      = 3 ∧
    (((run envOk [WindowEvent.Resized 1280 720,
      WindowEvent.RedrawRequested none, WindowEvent.RedrawRequested none,
      WindowEvent.RedrawRequested none]).2.drop 2).filter
        Action.isConfigure).length = 0 := by
  refine ⟨rfl, rfl, rfl⟩

/-- C1, counterexample: with a healthy GPU environment, a frame that fails
with `OutOfMemory` makes the loop exit via `control_flow.exit()` — exactly as
a close request does — and `run` returns normally, so the process exit code
is 0 although termination was caused neither by a close request nor by the
escape key. -/
theorem c1_counterexample :
    exitCode (run envOk [WindowEvent.Resized 1280 720,
      WindowEvent.RedrawRequested (some SurfaceError.OutOfMemory)]).1 = 0 ∧
    Action.exitLoop ExitCause.outOfMemory ∈
      (run envOk [WindowEvent.Resized 1280 720,
        WindowEvent.RedrawRequested (some SurfaceError.OutOfMemory)]).2 ∧
    (∀ c, Action.exitLoop c ∈
        (run envOk [WindowEvent.Resized 1280 720,
          WindowEvent.RedrawRequested (some SurfaceError.OutOfMemory)]).2 →
      c = ExitCause.outOfMemory) := by
  refine ⟨rfl, ?_, ?_⟩
  · simp [run, envOk, Env.initOk, runEvents, step, State.resize, State.render,
      State.new]
  · intro c hc
    simp [run, envOk, Env.initOk, runEvents, step, State.resize, State.render,
      State.new] at hc
    exact hc

/-- C1, amended: the process exit code is 0 exactly when adapter/device/
surface creation succeeded — every loop termination `control_flow.exit()`
performs (close request, escape key, and also `OutOfMemory`) ends the run
normally with exit code 0; only a creation failure terminates abruptly
(non-zero). -/
theorem c1_exit_code (env : Env) (events : List WindowEvent) :
    (exitCode (run env events).1 = 0 ↔ env.initOk) ∧
    (∀ c, Action.exitLoop c ∈ (run env events).2 →
      exitCode (run env events).1 = 0) := by
  by_cases h : env.initOk
  · have hr : (run env events).1 = RunOutcome.normal := by simp [run, h]
    exact ⟨by simp [hr, exitCode, h], fun c _ => by simp [hr, exitCode]⟩
  · have hr : run env events = (RunOutcome.panicked, []) := by simp [run, h]
    refine ⟨by simp [hr, exitCode, h], fun c hc => ?_⟩
    rw [hr] at hc
    exact absurd hc (List.not_mem_nil _)

/-- Witness for the amended C1: a close request in a healthy environment ends
the run with exit code 0. -/
theorem c1_exit_code_witness :
    (exitCode (run envOk [WindowEvent.CloseRequested]).1 = 0 ↔
      envOk.initOk) ∧
    (∀ c, Action.exitLoop c ∈ (run envOk [WindowEvent.CloseRequested]).2 →
      exitCode (run envOk [WindowEvent.CloseRequested]).1 = 0) :=
  c1_exit_code envOk [WindowEvent.CloseRequested]

end MotionSketch
